import Mathlib

/-!
Verification of the image-database REST server (src/app.js) against its
natural-language specification. The JavaScript handlers are shallowly
embedded: each route handler becomes a pure Lean function from the request
data and the store contents to a response value (and, for writes, the new
store contents). External primitives that the source uses as black boxes
(the regex engine behind Mongo `$regex`, `jwt.verify`, `bcrypt.compare`,
`fs.unlink`) are passed in as function parameters, so every theorem is
quantified over their behaviour and every witness instantiates them with a
concrete function.
-/

namespace ImageDatabase

/-- An image document of the `images` collection, as described by the body
comment of `POST /api/image/db` in src/app.js (timestamps omitted: no route
reads them). The `tags` field is the array of tag strings. -/
structure ImageDoc where
  _id : String
  title : String
  description : String
  filePath : String
  tags : List String
  deriving Repr, DecidableEq

/-- The value of a repeatable query parameter as express delivers it:
absent, a single string, or an array of strings. -/
inductive QueryVal where
  | absent
  | str (s : String)
  | arr (ss : List String)
  deriving Repr, DecidableEq

/-- Models lines 209-210 / 278-279 of src/app.js:
`let tags = req.query.tags || []; tags = Array.isArray(tags) ? tags : [tags]`.
An absent parameter and the empty string are falsy in JavaScript, hence give
`[]`; a non-empty string is wrapped in a singleton; an array is kept. -/
def tagsQueryToList : QueryVal → List String
  | .absent => []
  | .str s => if s = "" then [] else [s]
  | .arr ss => ss

/-- Models `let search = req.query.search || ".*"` (lines 208 / 277):
absent or empty search falls back to the match-everything pattern. -/
def searchQueryToRegex : Option String → String
  | none => ".*"
  | some s => if s = "" then ".*" else s

/-- The tag part of the Mongo filter object built by both
`GET /api/image/db` and `GET /api/image/db/pages`:
either `{ $all: tags }` (non-empty tag list) or `{ $in: [/.*/] }`. -/
inductive TagCond where
  | allOf (ts : List String)
  | anyRegexAll
  deriving Repr, DecidableEq

/-- The filter object `{ tags: ..., $or: [{title: {$regex: search, $options: "i"}},
{description: {$regex: search, $options: "i"}}] }` from src/app.js. -/
structure ImageFilter where
  tagCond : TagCond
  searchRegex : String
  deriving Repr, DecidableEq

/-- Builds the filter exactly as lines 212-218 (pages endpoint) and
lines 282-300 (list endpoint) of src/app.js do; the two code sites are
textually identical: `tags: tags.length ? { $all: tags } : { $in: [/.*/] }`
together with the `$or` regex clause over title and description. -/
def buildImageFilter (search : Option String) (tagsQ : QueryVal) : ImageFilter :=
  let ts := tagsQueryToList tagsQ
  { tagCond := if ts.length ≠ 0 then .allOf ts else .anyRegexAll
    searchRegex := searchQueryToRegex search }

/-- MongoDB evaluation of the tag condition on an array-valued `tags` field:
`$all: ts` holds iff every element of `ts` occurs in the array;
`$in: [/.*/]` holds iff some array element matches the regex `/.*/`, and
`/.*/` matches every string, so it holds iff the array is non-empty. -/
def tagCondHolds : TagCond → List String → Bool
  | .allOf ts, docTags => ts.all (fun t => docTags.contains t)
  | .anyRegexAll, docTags => docTags.any (fun _ => true)

/-- MongoDB evaluation of the whole filter on a document. The
case-insensitive regex engine behind `$regex ... $options: "i"` is the
parameter `rmatch` (pattern, subject). -/
def filterHolds (rmatch : String → String → Bool) (f : ImageFilter) (d : ImageDoc) : Bool :=
  tagCondHolds f.tagCond d.tags &&
    (rmatch f.searchRegex d.title || rmatch f.searchRegex d.description)

/-- The documents of the store that satisfy the filter built from the
`search` and `tags` query parameters: the match set both endpoints page
or count over. -/
def matchingDocs (rmatch : String → String → Bool) (store : List ImageDoc)
    (search : Option String) (tagsQ : QueryVal) : List ImageDoc :=
  store.filter (filterHolds rmatch (buildImageFilter search tagsQ))

/-- Models `parseInt(q) || d`: an absent or non-numeric parameter gives the
default, and so does an explicit 0 (0 is falsy in JavaScript). -/
def jsOrNat (v : Option Nat) (d : Nat) : Nat :=
  match v with
  | none => d
  | some n => if n = 0 then d else n

/-- The list branch of `GET /api/image/db` (lines 274-303 of src/app.js):
`skip = pageSize * (pageNum - 1)`, `limit = pageSize`, with defaults
pageSize = 15 and pageNum = 1 via `parseInt(...) || default`. -/
def listImages (rmatch : String → String → Bool) (store : List ImageDoc)
    (search : Option String) (tagsQ : QueryVal)
    (pageSize? pageNum? : Option Nat) : List ImageDoc :=
  let pageSize := jsOrNat pageSize? 15
  let pageNum := jsOrNat pageNum? 1
  let skipAmount := pageSize * (pageNum - 1)
  ((matchingDocs rmatch store search tagsQ).drop skipAmount).take pageSize

/-- The `GET /api/image/db/pages` handler (lines 207-234 of src/app.js):
counts the documents matching the very same filter and returns
`Math.ceil(count / pageSize)` with `pageSize = req.query.pageSize || 15`.
Unlike the list endpoint there is no `parseInt`, so a present parameter is
used as-is; the value 0 would make the JavaScript division non-finite,
which the model signals with `none`. -/
def pagesCount (rmatch : String → String → Bool) (store : List ImageDoc)
    (search : Option String) (tagsQ : QueryVal)
    (pageSize? : Option Nat) : Option Nat :=
  let n := (matchingDocs rmatch store search tagsQ).length
  let p := pageSize?.getD 15
  if p = 0 then none else some ((n + p - 1) / p)

/-- HTTP status codes used by src/app.js (via the http-status-codes
package, plus the literal 409 on line 349). -/
def OK : Nat := 200
def BAD_REQUEST : Nat := 400
def UNAUTHORIZED : Nat := 401
def NOT_FOUND : Nat := 404
def CONFLICT : Nat := 409
def INTERNAL_SERVER_ERROR : Nat := 500

/-- The identity a token carries: `{ email, name }` as signed at login. -/
structure AuthUser where
  email : String
  name : String
  deriving Repr, DecidableEq

/-- The payload of a verified token: `decoded.user` is read on line 75. -/
structure JwtPayload where
  user : AuthUser
  deriving Repr, DecidableEq

/-- Outcome of the auth middleware: either a response is sent and the
chain stops, or `next()` runs with `req.user` set to the given identity. -/
inductive AuthResult where
  | reject (status : Nat) (msg : String)
  | pass (user : AuthUser)
  deriving Repr, DecidableEq

/-- The `auth` middleware (lines 64-83 of src/app.js). `verify` stands for
`jwt.verify(token, sessionSecret)`, which either returns the decoded
payload or throws. `req.header("token")` is `none` when the header is
absent; an empty header value is falsy in JavaScript, so `!token` also
rejects it with 401 before `verify` is ever called. -/
def auth (verify : String → Except String JwtPayload) (token? : Option String) : AuthResult :=
  match token? with
  | none => .reject UNAUTHORIZED "Error: Authentication Error"
  | some token =>
    if token = "" then .reject UNAUTHORIZED "Error: Authentication Error"
    else
      match verify token with
      | .error e => .reject INTERNAL_SERVER_ERROR ("Error: Internal Server Error - " ++ e)
      | .ok decoded => .pass decoded.user

/-- A document of the `users` collection (line 33; fields read on
lines 101, 116, 130-131 of src/app.js). -/
structure UserDoc where
  email : String
  name : String
  passwordHash : String
  deriving Repr, DecidableEq

/-- A token as produced by `jwt.sign(payload, secret, { expiresIn })`. -/
structure SignedToken where
  payload : JwtPayload
  expiresIn : String
  deriving Repr, DecidableEq

/-- Result of the login handler, tagged with the response it sends. -/
inductive LoginResult where
  | notFound
  | unauthorized
  | success (token : SignedToken) (user : AuthUser)
  deriving Repr, DecidableEq

/-- The HTTP status attached to each login outcome in src/app.js. -/
def LoginResult.status : LoginResult → Nat
  | .notFound => NOT_FOUND
  | .unauthorized => UNAUTHORIZED
  | .success _ _ => OK

/-- Models `users.findOne({ email })` (line 101): the first user document
whose email equals the requested one, if any. -/
def findUserByEmail (usersColl : List UserDoc) (email : String) : Option UserDoc :=
  usersColl.find? (fun u => u.email = email)

/-- The `POST /api/auth/login` handler (lines 98-168 of src/app.js).
`bcryptCompare` stands for `bcrypt.compare(password, result.passwordHash)`.
No user → 404; hash mismatch → 401; match → 200 with a token signed for
7 days whose payload is `{ user: { email, name } }` of the found user. -/
def login (bcryptCompare : String → String → Bool) (usersColl : List UserDoc)
    (email password : String) : LoginResult :=
  match findUserByEmail usersColl email with
  | none => .notFound
  | some u =>
    if bcryptCompare password u.passwordHash then
      .success
        { payload := { user := { email := u.email, name := u.name } }
          expiresIn := "7 days" }
        { email := u.email, name := u.name }
    else .unauthorized

/-- Result of the image-insert handler. -/
inductive InsertResult where
  | conflict (id : String)
  | okInserted (insertedId : String)
  deriving Repr, DecidableEq

/-- The HTTP status of each insert outcome (409 on line 349, 200 on
line 364 of src/app.js). -/
def InsertResult.status : InsertResult → Nat
  | .conflict _ => CONFLICT
  | .okInserted _ => OK

/-- The `POST /api/image/db` handler (lines 345-368 of src/app.js).
`images.insertOne` fails with the duplicate-key error code 11000 when a
document with the same `_id` is already stored (the store enforces the
uniqueness of `_id`), which the handler maps to 409 and the message names
`req.body._id`; on success the store grows by the document and the message
echoes `result.insertedId`, which is the `_id` of the inserted document. -/
def insertImage (store : List ImageDoc) (doc : ImageDoc) : InsertResult × List ImageDoc :=
  if store.any (fun d => d._id = doc._id) then
    (.conflict doc._id, store)
  else
    (.okInserted doc._id, store ++ [doc])

/-- The driver result of `images.updateOne({_id}, body)`: how many
documents matched, and the upsert id (always absent here: the handler
never requests an upsert, so `result.upsertedId` is `undefined`). -/
structure MongoUpdateResult where
  matchedCount : Nat
  upsertedId : Option String
  deriving Repr, DecidableEq

/-- Replaces the first document whose `_id` equals that of `body` — the
effect of `updateOne` with filter `{ _id: body._id }`. Zero matching
documents is a successful call that changes nothing. -/
def replaceFirst (store : List ImageDoc) (body : ImageDoc) : List ImageDoc :=
  match store with
  | [] => []
  | d :: rest => if d._id = body._id then body :: rest else d :: replaceFirst rest body

/-- Models `images.updateOne({ _id: req.body._id }, req.body)` (line 388):
the call succeeds whether or not anything matched. -/
def updateOneImages (store : List ImageDoc) (body : ImageDoc) : MongoUpdateResult × List ImageDoc :=
  ( { matchedCount := if store.any (fun d => d._id = body._id) then 1 else 0
      upsertedId := none }
  , replaceFirst store body )

/-- Result of the image-update handler. The `notFound` constructor exists
only so that its absence from the handler image can be stated: no branch
of the PUT handler produces it. -/
inductive PutResult where
  | notFound
  | okMsg (msg : String)
  deriving Repr, DecidableEq

/-- True exactly on the NotFound outcome. -/
def PutResult.isNotFound : PutResult → Bool
  | .notFound => true
  | .okMsg _ => false

/-- JavaScript string concatenation with a possibly undefined value:
`"..." + undefined` renders as "undefined". -/
def jsShowOptString : Option String → String
  | none => "undefined"
  | some s => s

/-- The `PUT /api/image/db` handler (lines 387-409 of src/app.js): one
`updateOne` call; the callback only distinguishes `err` from success and
never reads `result.matchedCount`, so every successful store call — in
particular one that matched zero documents — answers 200 with
`"Successfully updated image _id=" + result.upsertedId`. -/
def putImage (store : List ImageDoc) (body : ImageDoc) : PutResult × List ImageDoc :=
  let r := updateOneImages store body
  (.okMsg ("Successfully updated image _id=" ++ jsShowOptString r.1.upsertedId), r.2)

/-- Node path.posix.basename for a non-empty pattern-free path string:
trailing separators are ignored and the part after the last remaining
separator is returned (the empty string when the input is empty or all
separators, mirroring the Node implementation). -/
def basename (s : String) : String :=
  let rev := s.data.reverse.dropWhile (fun c => c = '/')
  String.mk ((rev.takeWhile (fun c => c ≠ '/')).reverse)

/-- Node path.join over a base directory given as a list of path segments:
appended segments are normalized the way join does it — empty and "."
segments vanish, ".." removes the previous segment. -/
def joinSegs (base : List String) (segs : List String) : List String :=
  segs.foldl
    (fun acc seg =>
      if seg = "" ∨ seg = "." then acc
      else if seg = ".." then acc.dropLast
      else acc ++ [seg])
    base

/-- The path handed to `fs.unlink` on line 487 of src/app.js:
`path.join(__dirname, "images", path.basename(req.query.file))`. -/
def unlinkTarget (appDir : List String) (file : String) : List String :=
  joinSegs appDir ["images", basename file]

/-- Whether `target` lies inside the directory `dir` (segment lists). -/
def withinDir (dir target : List String) : Bool := dir.isPrefixOf target

/-- Outcome of the storage-delete handler: either a synchronous exception
escaped the handler (no JSON response of the handler is sent), or a JSON
response with the given status. -/
inductive StorageDelResult where
  | thrown (msg : String)
  | jsonRes (status : Nat) (msg : String)
  deriving Repr, DecidableEq

/-- True exactly on the JSON-response outcomes. -/
def StorageDelResult.isJson : StorageDelResult → Bool
  | .thrown _ => false
  | .jsonRes _ _ => true

/-- The `DELETE /api/image/storage` handler (lines 485-511 of src/app.js).
`unlink` stands for `fs.unlink`: `none` is success, `some code` the error
code of the failed call. When the `file` query parameter is absent,
`path.basename(undefined)` throws a TypeError synchronously — before
`fs.unlink` is ever called — so neither the 404 nor the 500 JSON branch of
the callback can run. Otherwise ENOENT maps to 404, any other error to
500, success to 200. -/
def deleteStorage (unlink : List String → Option String) (appDir : List String)
    (file? : Option String) : StorageDelResult :=
  match file? with
  | none => .thrown "TypeError: The path argument must be of type string"
  | some file =>
    match unlink (unlinkTarget appDir file) with
    | some code =>
      if code = "ENOENT" then .jsonRes NOT_FOUND "Error: Image not found"
      else .jsonRes INTERNAL_SERVER_ERROR "Error: Internal Server Error"
    | none => .jsonRes OK ("Successfully deleted image - " ++ file)

/-- A document of the `tags` collection. -/
structure TagDoc where
  tag : String
  deriving Repr, DecidableEq

/-- The database state the tag routes can reach: the image documents and
the tag documents. -/
structure DbState where
  images : List ImageDoc
  tagDocs : List TagDoc
  deriving Repr, DecidableEq

/-- The `DELETE /api/tags` handler body (lines 571-584 of src/app.js): the
`tags.deleteOne` call and the scrub of the tag from the images are
commented out, leaving only `res.status(200).end()` — a no-op success. -/
def deleteTagsHandler (st : DbState) : Nat × DbState := (OK, st)

/-- The full `DELETE /api/tags` route as registered on line 571:
`app.delete("/api/tags", auth, handler)` — the auth middleware runs first
and the handler only runs when it passes. -/
def deleteTagsRoute (verify : String → Except String JwtPayload) (token? : Option String)
    (st : DbState) : Nat × DbState :=
  match auth verify token? with
  | .reject status _ => (status, st)
  | .pass _ => deleteTagsHandler st

/-- One route registration of src/app.js: method, path, whether the auth
middleware is in its chain, and whether its handler writes to the
database or the storage directory. -/
structure Route where
  method : String
  path : String
  requiresAuth : Bool
  mutates : Bool
  deriving Repr, DecidableEq

/-- Every route src/app.js registers, in registration order (the static
file server of line 36 is listed as a GET route on its mount path; the
DELETE /api/tags handler performs no write — its body is commented out —
but it is still registered behind auth). -/
def routes : List Route :=
  [ { method := "GET",    path := "/api/files/images",   requiresAuth := false, mutates := false }
  , { method := "GET",    path := "/api",                requiresAuth := false, mutates := false }
  , { method := "POST",   path := "/api/auth/login",     requiresAuth := false, mutates := false }
  , { method := "GET",    path := "/api/auth/session",   requiresAuth := true,  mutates := false }
  , { method := "GET",    path := "/api/image/db/pages", requiresAuth := false, mutates := false }
  , { method := "GET",    path := "/api/image/db",       requiresAuth := false, mutates := false }
  , { method := "POST",   path := "/api/image/db",       requiresAuth := true,  mutates := true }
  , { method := "PUT",    path := "/api/image/db",       requiresAuth := true,  mutates := true }
  , { method := "DELETE", path := "/api/image/db",       requiresAuth := true,  mutates := true }
  , { method := "POST",   path := "/api/image/storage",  requiresAuth := true,  mutates := true }
  , { method := "DELETE", path := "/api/image/storage",  requiresAuth := true,  mutates := true }
  , { method := "GET",    path := "/api/tags",           requiresAuth := false, mutates := false }
  , { method := "POST",   path := "/api/tags",           requiresAuth := true,  mutates := true }
  , { method := "DELETE", path := "/api/tags",           requiresAuth := true,  mutates := false }
  ]

/-- The method/path pairs of the state-mutating endpoints enumerated by
the specification. -/
def mutatingEndpoints : List (String × String) :=
  [ ("POST", "/api/image/db"), ("PUT", "/api/image/db"), ("DELETE", "/api/image/db")
  , ("POST", "/api/image/storage"), ("DELETE", "/api/image/storage")
  , ("POST", "/api/tags"), ("DELETE", "/api/tags") ]

/-- The method/path pairs of the read endpoints enumerated by the
specification as accepting requests with no token. -/
def readEndpoints : List (String × String) :=
  [ ("GET", "/api/image/db"), ("GET", "/api/image/db/pages")
  , ("GET", "/api/tags"), ("GET", "/api/files/images") ]

/-- Whether a request with the given token header can cause a write when
dispatched to route `r`: a route behind auth runs its handler only when
the auth middleware passes. -/
def mutatesOnRequest (verify : String → Except String JwtPayload) (r : Route)
    (token? : Option String) : Bool :=
  if r.requiresAuth then
    match auth verify token? with
    | .reject _ _ => false
    | .pass _ => r.mutates
  else r.mutates

/-! Concrete instances used to instantiate the theorems on closed inputs. -/

/-- A concrete store of three documents, all carrying one tag. -/
def wstore3 : List ImageDoc :=
  [ { _id := "1", title := "t1", description := "", filePath := "", tags := ["x"] }
  , { _id := "2", title := "t2", description := "", filePath := "", tags := ["x"] }
  , { _id := "3", title := "t3", description := "", filePath := "", tags := ["x"] } ]

/-- A concrete token payload. -/
def wpayload : JwtPayload := { user := { email := "user@example.com", name := "Example User" } }

/-- A concrete verifier: accepts exactly the token "tok". -/
def wverify : String → Except String JwtPayload :=
  fun t => if t = "tok" then Except.ok wpayload else Except.error "jwt malformed"

/-- A concrete user document. -/
def wuser : UserDoc :=
  { email := "user@example.com", name := "Example User", passwordHash := "hash1" }

/-- A concrete hash comparison: "secret" against "hash1" succeeds. -/
def wcompare : String → String → Bool :=
  fun pw h => pw == "secret" && h == "hash1"

/-- A concrete image document. -/
def wdoc : ImageDoc :=
  { _id := "i1", title := "title", description := "desc", filePath := "p", tags := ["t"] }

/-- A second document sharing the identifier of `wdoc`. -/
def wdoc2 : ImageDoc :=
  { _id := "i1", title := "other", description := "", filePath := "q", tags := [] }

/-- A document with a different identifier. -/
def wdoc3 : ImageDoc :=
  { _id := "i2", title := "x", description := "", filePath := "", tags := [] }

/-- An empty database state. -/
def wstate : DbState := { images := [], tagDocs := [] }

/-! Helper lemmas shared by the claim theorems. -/

/-- Listing with a trivially true predicate succeeds exactly on non-empty
lists: the evaluation of `$in: [/.*/]` on an array field. -/
theorem any_true_iff_ne_nil (l : List String) : l.any (fun _ => true) = true ↔ l ≠ [] := by
  cases l <;> simp

/-- A list with a member is non-empty, and conversely. -/
theorem exists_mem_iff_ne_nilStr (l : List String) : (∃ x, x ∈ l) ↔ l ≠ [] := by
  cases l <;> simp

/-- The ceiling formula of the pages endpoint: for a positive divisor,
`(n + p - 1) / p` in natural division is the ceiling of the rational
quotient. -/
theorem ceilDiv_cast (n p : ℕ) (hp : 0 < p) :
    ⌈(n : ℚ) / (p : ℚ)⌉₊ = (n + p - 1) / p := by
  have hp' : (0 : ℚ) < (p : ℚ) := by exact_mod_cast hp
  rcases Nat.eq_zero_or_pos n with hn | hn
  · subst hn
    have hz : (p - 1) / p = 0 := Nat.div_eq_of_lt (Nat.sub_lt hp Nat.one_pos)
    simp [hz]
  · obtain ⟨m, rfl⟩ : ∃ m, n = m + 1 := ⟨n - 1, by omega⟩
    have harg : m + 1 + p - 1 = m + p := by omega
    rw [harg]
    have e := Nat.div_add_mod (m + p) p
    have hr : (m + p) % p < p := Nat.mod_lt _ hp
    have h1 : m + 1 ≤ p * ((m + p) / p) := by omega
    have h2 : p * ((m + p) / p) ≤ m + p := by omega
    have hq1 : 1 ≤ (m + p) / p := (Nat.one_le_div_iff hp).mpr (by omega)
    set q := (m + p) / p with hq
    have hp1 : (1 : ℚ) ≤ (p : ℚ) := by exact_mod_cast hp
    have h1Q : (m : ℚ) + 1 ≤ (p : ℚ) * (q : ℚ) := by exact_mod_cast h1
    have h2Q : (p : ℚ) * (q : ℚ) ≤ (m : ℚ) + (p : ℚ) := by exact_mod_cast h2
    rw [Nat.ceil_eq_iff (by omega : q ≠ 0)]
    constructor
    · rw [Nat.cast_sub hq1, lt_div_iff₀ hp']
      push_cast
      linarith
    · rw [div_le_iff₀ hp']
      push_cast
      linarith

/-- A list is a `isPrefixOf`-prefix of itself extended on the right. -/
theorem isPrefixOf_self_append (l m : List String) : l.isPrefixOf (l ++ m) = true := by
  induction l with
  | nil => simp
  | cons a l ih => simp [List.isPrefixOf, ih]

/-- A replace targeting an identifier held by no document is the
identity on the store. -/
theorem replaceFirst_of_no_match (store : List ImageDoc) (body : ImageDoc)
    (h : store.all (fun d => d._id != body._id) = true) :
    replaceFirst store body = store := by
  induction store with
  | nil => rfl
  | cons d rest ih =>
    rw [List.all_cons, Bool.and_eq_true] at h
    have hd : ¬ d._id = body._id := by simpa using h.1
    simp [replaceFirst, hd, ih h.2]

/-! Claim theorems. -/

/-- C1 counterexample: the second half of the claim fails. The store holds
one document whose tags array is empty; the regex engine is instantiated
with the all-matching function, so the search filter (pattern ".*",
matching everything) accepts the document; the tags parameter is absent.
The claim says the tag filter excludes no document, yet the match set is
empty: `{ tags: { $in: [/.*/] } }` requires at least one array element. -/
theorem C1_empty_tags_counterexample :
    (fun _ _ => true : String → String → Bool) ".*" "sunset" = true ∧
    matchingDocs (fun _ _ => true)
      [{ _id := "img1", title := "sunset", description := "", filePath := "p", tags := [] }]
      none QueryVal.absent = [] :=
  ⟨rfl, rfl⟩

/-- C1 (amended): for a tags parameter holding the list [a, b], the
documents matching the filter of GET /api/image/db are exactly those of
the store whose tag set contains both a and b and that pass the search
filter; for an absent tags parameter, the filter `{ tags: { $in: [/.*/] } }`
keeps exactly the documents with a non-empty tags array that pass the
search filter — documents with an empty tags array are excluded, not
included as the original claim states. -/
theorem C1_tag_filter_amended (rmatch : String → String → Bool) (store : List ImageDoc)
    (search : Option String) (a b : String) (d : ImageDoc) :
    (d ∈ matchingDocs rmatch store search (QueryVal.arr [a, b]) ↔
      d ∈ store ∧ (d.tags.contains a = true ∧ d.tags.contains b = true) ∧
        (rmatch (searchQueryToRegex search) d.title = true ∨
          rmatch (searchQueryToRegex search) d.description = true)) ∧
    (d ∈ matchingDocs rmatch store search QueryVal.absent ↔
      d ∈ store ∧ d.tags ≠ [] ∧
        (rmatch (searchQueryToRegex search) d.title = true ∨
          rmatch (searchQueryToRegex search) d.description = true)) := by
  constructor
  · simp [matchingDocs, List.mem_filter, filterHolds, buildImageFilter, tagsQueryToList,
      tagCondHolds, and_assoc]
  · simp [matchingDocs, List.mem_filter, filterHolds, buildImageFilter, tagsQueryToList,
      tagCondHolds, exists_mem_iff_ne_nilStr, and_assoc]

/-- C2: the auth middleware sends 401 when the token header is absent (or
empty, which JavaScript treats as no token), sends 500 — not 401 — when
`jwt.verify` fails on a presented token, and on success attaches the
decoded identity and lets the downstream handler run. -/
theorem C2_auth_gate (verify : String → Except String JwtPayload) :
    auth verify none = .reject UNAUTHORIZED "Error: Authentication Error" ∧
    (∀ t e, t ≠ "" → verify t = .error e →
      auth verify (some t) =
        .reject INTERNAL_SERVER_ERROR ("Error: Internal Server Error - " ++ e)) ∧
    (∀ t p, t ≠ "" → verify t = .ok p →
      auth verify (some t) = .pass p.user) := by
  refine ⟨rfl, ?_, ?_⟩
  · intro t e ht hv
    simp [auth, ht, hv]
  · intro t p ht hv
    simp [auth, ht, hv]

/-- C2 witness: the gate evaluated on a failing and on a valid token. -/
theorem C2_auth_gate_witness :
    auth wverify (some "bad") =
      AuthResult.reject INTERNAL_SERVER_ERROR ("Error: Internal Server Error - " ++ "jwt malformed") ∧
    auth wverify (some "tok") = AuthResult.pass wpayload.user :=
  ⟨(C2_auth_gate wverify).2.1 "bad" "jwt malformed" (by decide) (by simp [wverify]),
    (C2_auth_gate wverify).2.2 "tok" wpayload (by decide) (by simp [wverify])⟩

/-- C3: with a positive page size (default 15 when the parameter is
absent), the pages endpoint returns exactly the ceiling of the number of
documents matching the filter — the same `matchingDocs` that the list
endpoint pages over — divided by the page size. -/
theorem C3_pages_is_ceiling (rmatch : String → String → Bool) (store : List ImageDoc)
    (search : Option String) (tagsQ : QueryVal) (pageSize? : Option Nat)
    (hpos : 0 < pageSize?.getD 15) :
    pagesCount rmatch store search tagsQ pageSize? =
      some ⌈((matchingDocs rmatch store search tagsQ).length : ℚ) / (pageSize?.getD 15 : ℚ)⌉₊ := by
  have hne : pageSize?.getD 15 ≠ 0 := Nat.pos_iff_ne_zero.mp hpos
  rw [ceilDiv_cast _ _ hpos]
  simp only [pagesCount]
  rw [if_neg hne]

/-- C3 witness: three matching documents and page size 2 give 2 pages. -/
theorem C3_pages_is_ceiling_witness :
    0 < (some 2 : Option Nat).getD 15 ∧
    pagesCount (fun _ _ => true) wstore3 none QueryVal.absent (some 2) =
      some ⌈((matchingDocs (fun _ _ => true) wstore3 none QueryVal.absent).length : ℚ) /
        ((some 2 : Option Nat).getD 15 : ℚ)⌉₊ :=
  ⟨by decide, C3_pages_is_ceiling (fun _ _ => true) wstore3 none QueryVal.absent (some 2) (by decide)⟩

/-- C4: login answers 404 when no user document carries the requested
email, 401 when the password does not match the stored hash, and on a
match 200 with a token valid for 7 days whose payload embeds the email
and name of the found user. -/
theorem C4_login (bcryptCompare : String → String → Bool) (usersColl : List UserDoc)
    (email password : String) :
    (findUserByEmail usersColl email = none →
      login bcryptCompare usersColl email password = .notFound ∧
      (login bcryptCompare usersColl email password).status = NOT_FOUND) ∧
    (∀ u, findUserByEmail usersColl email = some u →
      bcryptCompare password u.passwordHash = false →
      login bcryptCompare usersColl email password = .unauthorized ∧
      (login bcryptCompare usersColl email password).status = UNAUTHORIZED) ∧
    (∀ u, findUserByEmail usersColl email = some u →
      bcryptCompare password u.passwordHash = true →
      login bcryptCompare usersColl email password =
        .success
          { payload := { user := { email := u.email, name := u.name } }
            expiresIn := "7 days" }
          { email := u.email, name := u.name } ∧
      (login bcryptCompare usersColl email password).status = OK) := by
  refine ⟨?_, ?_, ?_⟩
  · intro h
    simp [login, h, LoginResult.status]
  · intro u h hb
    simp [login, h, hb, LoginResult.status]
  · intro u h hb
    simp [login, h, hb, LoginResult.status]

/-- C4 witness: the three branches evaluated on a one-user collection. -/
theorem C4_login_witness :
    (login wcompare [wuser] "nobody@example.com" "secret" = LoginResult.notFound ∧
      (login wcompare [wuser] "nobody@example.com" "secret").status = NOT_FOUND) ∧
    (login wcompare [wuser] "user@example.com" "wrong" = LoginResult.unauthorized ∧
      (login wcompare [wuser] "user@example.com" "wrong").status = UNAUTHORIZED) ∧
    (login wcompare [wuser] "user@example.com" "secret" =
      LoginResult.success
        { payload := { user := { email := wuser.email, name := wuser.name } }
          expiresIn := "7 days" }
        { email := wuser.email, name := wuser.name } ∧
      (login wcompare [wuser] "user@example.com" "secret").status = OK) :=
  ⟨(C4_login wcompare [wuser] "nobody@example.com" "secret").1 (by decide),
    (C4_login wcompare [wuser] "user@example.com" "wrong").2.1 wuser (by decide) (by decide),
    (C4_login wcompare [wuser] "user@example.com" "secret").2.2 wuser (by decide) (by decide)⟩

/-- C5: inserting a document whose identifier is already stored (the
store holds exactly one document with that identifier, as the unique
index guarantees) answers 409 Conflict and leaves the store — hence the
count of documents with that identifier — unchanged; inserting under a
fresh identifier succeeds and the response echoes the identifier of the
inserted document. -/
theorem C5_insert (store : List ImageDoc) (doc : ImageDoc) :
    ((store.filter (fun d => d._id = doc._id)).length = 1 →
      insertImage store doc = (.conflict doc._id, store) ∧
      (insertImage store doc).1.status = CONFLICT ∧
      ((insertImage store doc).2.filter (fun d => d._id = doc._id)).length = 1) ∧
    ((store.filter (fun d => d._id = doc._id)).length = 0 →
      insertImage store doc = (.okInserted doc._id, store ++ [doc]) ∧
      (insertImage store doc).1.status = OK) := by
  constructor
  · intro h
    have hne : store.filter (fun d => decide (d._id = doc._id)) ≠ [] := by
      intro hnil
      rw [hnil] at h
      simp at h
    obtain ⟨x, hx⟩ := List.exists_mem_of_ne_nil _ hne
    rw [List.mem_filter] at hx
    have hany : store.any (fun d => decide (d._id = doc._id)) = true :=
      List.any_eq_true.mpr ⟨x, hx.1, hx.2⟩
    refine ⟨by simp [insertImage, hany], by simp [insertImage, hany, InsertResult.status], ?_⟩
    simp only [insertImage, hany, if_true]
    exact h
  · intro h
    have hnil : store.filter (fun d => decide (d._id = doc._id)) = [] :=
      List.length_eq_zero.mp h
    have hany : store.any (fun d => decide (d._id = doc._id)) = false := by
      rw [← Bool.not_eq_true, List.any_eq_true]
      rintro ⟨x, hx, hpx⟩
      have : x ∈ store.filter (fun d => decide (d._id = doc._id)) :=
        List.mem_filter.mpr ⟨hx, hpx⟩
      rw [hnil] at this
      exact List.not_mem_nil x this
    exact ⟨by simp [insertImage, hany], by simp [insertImage, hany, InsertResult.status]⟩

/-- C5 witness: a duplicate insert on a one-document store and a fresh
insert on the empty store. -/
theorem C5_insert_witness :
    (insertImage [wdoc] wdoc2 = (InsertResult.conflict wdoc2._id, [wdoc]) ∧
      (insertImage [wdoc] wdoc2).1.status = CONFLICT ∧
      ((insertImage [wdoc] wdoc2).2.filter (fun d => d._id = wdoc2._id)).length = 1) ∧
    (insertImage [] wdoc = (InsertResult.okInserted wdoc._id, [] ++ [wdoc]) ∧
      (insertImage [] wdoc).1.status = OK) :=
  ⟨(C5_insert [wdoc] wdoc2).1 (by decide), (C5_insert [] wdoc).2 (by decide)⟩

/-- C6 counterexample: the claim that the unlinked path is confined to
the storage directory for every value of the file parameter fails at
`file = ".."`: `path.basename("..")` is `".."` and the join collapses it,
so the handler hands `fs.unlink` the application directory itself — the
parent of the storage directory, not a path inside it. -/
theorem C6_basename_traversal_counterexample :
    unlinkTarget ["home", "app"] ".." = ["home", "app"] ∧
    withinDir (["home", "app"] ++ ["images"]) (unlinkTarget ["home", "app"] "..") = false := by
  decide

/-- C6 (amended): for every file parameter whose basename is none of "",
"." and "..", the unlinked path is exactly the storage directory extended
by that basename, hence confined to the storage directory; the basename
never contains a path separator, so apart from those three dot-segment
values no path outside the storage directory is ever addressed; and when
the unlink fails with ENOENT the response is 404 NotFound. -/
theorem C6_storage_delete_amended (unlink : List String → Option String)
    (appDir : List String) (file : String) :
    (basename file ≠ "" → basename file ≠ "." → basename file ≠ ".." →
      unlinkTarget appDir file = appDir ++ ["images", basename file] ∧
      withinDir (appDir ++ ["images"]) (unlinkTarget appDir file) = true) ∧
    (basename file).data.all (fun c => c ≠ '/') = true ∧
    (unlink (unlinkTarget appDir file) = some "ENOENT" →
      deleteStorage unlink appDir (some file) = .jsonRes NOT_FOUND "Error: Image not found") := by
  refine ⟨?_, ?_, ?_⟩
  · intro h1 h2 h3
    have htarget : unlinkTarget appDir file = appDir ++ ["images", basename file] := by
      simp [unlinkTarget, joinSegs, h1, h2, h3]
    refine ⟨htarget, ?_⟩
    rw [htarget]
    have : appDir ++ ["images", basename file] = (appDir ++ ["images"]) ++ [basename file] := by
      simp
    rw [this, withinDir]
    exact isPrefixOf_self_append _ _
  · rw [List.all_eq_true]
    intro c hc
    have hc2 : c ∈ (file.data.reverse.dropWhile (fun x => x = '/')).takeWhile
        (fun x => decide (x ≠ '/')) := by
      rw [← List.mem_reverse]
      exact hc
    have h3 := List.mem_takeWhile_imp hc2
    simpa using h3
  · intro h
    simp [deleteStorage, h]

/-- C6 witness: a slash-bearing parameter reduced to its basename lands
inside the storage directory, and a missing file answers 404. -/
theorem C6_storage_delete_amended_witness :
    (unlinkTarget ["home", "app"] "sub/img.png" =
      ["home", "app"] ++ ["images", basename "sub/img.png"] ∧
      withinDir (["home", "app"] ++ ["images"]) (unlinkTarget ["home", "app"] "sub/img.png") = true) ∧
    deleteStorage (fun _ => some "ENOENT") ["home", "app"] (some "sub/img.png") =
      StorageDelResult.jsonRes NOT_FOUND "Error: Image not found" :=
  ⟨(C6_storage_delete_amended (fun _ => some "ENOENT") ["home", "app"] "sub/img.png").1
      (by decide) (by decide) (by decide),
    (C6_storage_delete_amended (fun _ => some "ENOENT") ["home", "app"] "sub/img.png").2.2
      (by decide)⟩

/-- C7 counterexample: DELETE /api/tags is registered behind the auth
middleware, so a request with no token header is answered 401, not 200 —
the claim fails for unauthenticated requests. -/
theorem C7_unauthenticated_counterexample :
    (deleteTagsRoute (fun _ => Except.error "boom") none wstate).1 = UNAUTHORIZED ∧
    ((deleteTagsRoute (fun _ => Except.error "boom") none wstate).1 == OK) = false := by
  constructor
  · rfl
  · rfl

/-- C7 (amended): no request to DELETE /api/tags ever modifies the tags
collection or any image document, and every request that passes the auth
gate is answered 200 — the handler is a no-op success, its delete and
scrub logic being commented out. -/
theorem C7_delete_tags_amended (verify : String → Except String JwtPayload)
    (token? : Option String) (st : DbState) :
    (deleteTagsRoute verify token? st).2 = st ∧
    (∀ u, auth verify token? = .pass u → deleteTagsRoute verify token? st = (OK, st)) := by
  constructor
  · cases h : auth verify token? <;> simp [deleteTagsRoute, h, deleteTagsHandler]
  · intro u h
    simp [deleteTagsRoute, h, deleteTagsHandler]

/-- C7 witness: an authenticated request gets 200 and an unchanged state. -/
theorem C7_delete_tags_amended_witness :
    (deleteTagsRoute (fun _ => Except.ok wpayload) (some "tok") wstate).2 = wstate ∧
    deleteTagsRoute (fun _ => Except.ok wpayload) (some "tok") wstate = (OK, wstate) :=
  ⟨(C7_delete_tags_amended (fun _ => Except.ok wpayload) (some "tok") wstate).1,
    (C7_delete_tags_amended (fun _ => Except.ok wpayload) (some "tok") wstate).2
      wpayload.user (by simp [auth])⟩

/-- C8: PUT /api/image/db never answers NotFound: for every request body
— in particular one whose identifier matches no stored document — the
update call succeeds and the handler answers 200 with its success message
(whose `_id=` part renders the absent `upsertedId` as "undefined"); the
matched count is never inspected, and a zero-match update leaves the
store unchanged while still answering 200. -/
theorem C8_put_never_notFound (store : List ImageDoc) (body : ImageDoc) :
    (putImage store body).1 = .okMsg "Successfully updated image _id=undefined" ∧
    (putImage store body).1.isNotFound = false ∧
    (store.all (fun d => d._id != body._id) = true →
      (putImage store body).2 = store ∧
      (putImage store body).1 = .okMsg "Successfully updated image _id=undefined") := by
  refine ⟨rfl, rfl, ?_⟩
  intro h
  exact ⟨replaceFirst_of_no_match store body h, rfl⟩

/-- C8 witness: an update whose identifier matches nothing still answers
200 and leaves the one-document store unchanged. -/
theorem C8_put_never_notFound_witness :
    (putImage [wdoc3] wdoc).2 = [wdoc3] ∧
    (putImage [wdoc3] wdoc).1 = PutResult.okMsg "Successfully updated image _id=undefined" :=
  (C8_put_never_notFound [wdoc3] wdoc).2.2 (by decide)

/-- C9: a DELETE /api/image/storage request without the file query
parameter makes `path.basename(undefined)` throw synchronously, so the
handler produces no JSON response at all — neither the 404 nor the 500
branch of the unlink callback is reachable for such a request. -/
theorem C9_missing_file_param_throws (unlink : List String → Option String)
    (appDir : List String) :
    deleteStorage unlink appDir none =
      .thrown "TypeError: The path argument must be of type string" ∧
    (deleteStorage unlink appDir none).isJson = false :=
  ⟨rfl, rfl⟩

/-- C10: every state-mutating endpoint named by the claim is registered
with the auth middleware in its chain, every route that can write is
behind auth, the enumerated read endpoints (including the static file
mount) carry no auth, both enumerations are non-vacuous in the route
table, and a request with no token header can cause no write on any
route: on an auth-guarded route the middleware rejects before the
handler runs, and every unguarded route has a read-only handler. -/
theorem C10_writes_require_auth (verify : String → Except String JwtPayload) :
    mutatingEndpoints.all (fun mp =>
      (routes.filter (fun r => r.method == mp.1 && r.path == mp.2)).all
        (fun r => r.requiresAuth)) = true ∧
    mutatingEndpoints.all (fun mp =>
      routes.any (fun r => r.method == mp.1 && r.path == mp.2)) = true ∧
    readEndpoints.all (fun mp =>
      (routes.filter (fun r => r.method == mp.1 && r.path == mp.2)).all
        (fun r => !r.requiresAuth)) = true ∧
    readEndpoints.all (fun mp =>
      routes.any (fun r => r.method == mp.1 && r.path == mp.2)) = true ∧
    routes.all (fun r => !r.mutates || r.requiresAuth) = true ∧
    routes.all (fun r => !(mutatesOnRequest verify r none)) = true := by
  refine ⟨by decide, by decide, by decide, by decide, by decide, ?_⟩
  rfl

end ImageDatabase
